import Mathlib

/-!
Verification development for the DrugVista retrieval + heuristic-scoring
pipeline.  Python strings are modelled as `List Char`, Python floats as `ℚ`,
fallible calls (the external generation service, FAISS retrieval) as
`Except`-valued inputs.  Each definition mirrors one function of the
repository (`backend/vector_store.py`, `backend/rag_pipeline.py`,
`demo_offline.py`); doc comments name the source function.
-/

/-- The character list of a string (model of a Python `str`). -/
def chars (s : String) : List Char := s.data

/-- Model of Python `str.lower()` on a character list. -/
def lowerL (t : List Char) : List Char := t.map Char.toLower

/-- Helper for the substring test: does `kw` occur at the head of `s`? -/
def kwAt : List Char → List Char → Bool
  | [], _ => true
  | _ :: _, [] => false
  | a :: as, b :: bs => a == b && kwAt as bs

/-- Model of the Python membership test `kw in s` on strings:
`kwIn kw s = true` iff `kw` occurs contiguously inside `s`. -/
def kwIn (kw : List Char) : List Char → Bool
  | [] => kwAt kw []
  | b :: bs => kwAt kw (b :: bs) || kwIn kw bs

/-- Model of Python `any(word in t for word in kws)`. -/
def anyKw (kws : List String) (t : List Char) : Bool :=
  kws.any (fun k => kwIn (chars k) t)

/-- Model of Python `round(x, 2)`: round to the nearest hundredth with
ties going to the even hundredth (banker's rounding). -/
def pyRound2 (x : ℚ) : ℚ :=
  ((if (1 : ℚ)/2 < x * 100 - (⌊x * 100⌋ : ℚ) then ⌊x * 100⌋ + 1
    else if x * 100 - (⌊x * 100⌋ : ℚ) < 1/2 then ⌊x * 100⌋
    else if ⌊x * 100⌋ % 2 = 0 then ⌊x * 100⌋ else ⌊x * 100⌋ + 1 : ℤ) : ℚ) / 100

/-- A rational has at most two decimal places when 100 times it is an integer. -/
def twoDecimal (x : ℚ) : Prop := ∃ m : ℤ, x * 100 = (m : ℚ)

/-- A raw document record as ingested (`content`, `filename`, `type`). -/
structure Doc where
  content : List Char
  filename : String
  dtype : String
deriving DecidableEq

/-- A retrieval result: a copy of the stored metadata record with the
`similarity_score` and `content` fields attached, as built inside
`VectorStore.search`. -/
structure RetrievedDoc where
  content : List Char
  filename : String
  dtype : String
  score : ℚ
deriving DecidableEq

/-- State of `VectorStore`: the FAISS index (one embedding vector per
document), the parallel raw-text list `documents`, and the parallel
`metadata` list. -/
structure VectorStore where
  vectors : List (List ℚ)
  documents : List (List Char)
  metadata : List Doc
deriving DecidableEq

/-- The parallel-storage invariant of the store. -/
def VectorStore.inv (s : VectorStore) : Prop :=
  s.vectors.length = s.documents.length ∧ s.documents.length = s.metadata.length

instance (s : VectorStore) : Decidable s.inv := by
  unfold VectorStore.inv; infer_instance

/-- Model of `VectorStore._create_empty_index`: the freshly initialized store. -/
def emptyStore : VectorStore := ⟨[], [], []⟩

/-- Inner product of two embedding vectors (FAISS `IndexFlatIP`). -/
def ip (a b : List ℚ) : ℚ := (List.zipWith (· * ·) a b).sum

/-- Model of `VectorStore.add_documents`: no-op on an empty batch, otherwise append
one embedding per document to the index and extend the two parallel lists.
The embedding model (`SentenceTransformer.encode`) is an external component,
modelled as the function argument `embed`. -/
def addDocuments (embed : List Char → List ℚ) (docs : List Doc)
    (s : VectorStore) : VectorStore :=
  if docs = [] then s
  else
    { vectors := s.vectors ++ docs.map (fun d => embed d.content),
      documents := s.documents ++ docs.map (fun d => d.content),
      metadata := s.metadata ++ docs }

/-- Comparator used to model FAISS `IndexFlatIP.search` result order:
higher score first, ties broken by storage index. -/
def leSI (p q : ℕ × ℚ) : Bool := decide (q.2 < p.2 ∨ (p.2 = q.2 ∧ p.1 ≤ q.1))

/-- The `(scores, indices)` pairs produced by the FAISS call
`index.search(query_embedding, min(top_k, ntotal))`: every stored vector is
scored by inner product against the query embedding and the
`min top_k ntotal` best pairs are returned in descending-score order
(ties by storage index). -/
def searchHits (s : VectorStore) (qv : List ℚ) (topk : ℕ) : List (ℕ × ℚ) :=
  (((s.vectors.map (fun v => ip qv v)).enum).mergeSort leSI).take
    (min topk s.vectors.length)

/-- The result-formatting loop body of `VectorStore.search`: guarded by
`idx < len(self.metadata)`, copy the metadata record and attach
`similarity_score` and the stored text. -/
def mkResult (s : VectorStore) (p : ℕ × ℚ) : Option RetrievedDoc :=
  if p.1 < s.metadata.length then
    some { content := s.documents.getD p.1 [],
           filename := (s.metadata.getD p.1 ⟨[], "", ""⟩).filename,
           dtype := (s.metadata.getD p.1 ⟨[], "", ""⟩).dtype,
           score := p.2 }
  else none

/-- Model of `VectorStore.search`: empty result on an empty index; otherwise embed
the query, take the best-scoring hits and format each one. -/
def search (embed : List Char → List ℚ) (s : VectorStore)
    (q : List Char) (topk : ℕ) : List RetrievedDoc :=
  if s.vectors.length = 0 then []
  else (searchHits s (embed q) topk).filterMap (mkResult s)

/-- Outcome of one call to the external generation service: the completion
text, or the error message of the raised exception. -/
abbrev GenResult := Except (List Char) (List Char)

/-- Result record of `RAGPipeline._analyze_context`. -/
structure CtxRes where
  analysis : List Char
  docs_used : ℕ
deriving DecidableEq

/-- Result record of `RAGPipeline._analyze_clinical`. -/
structure ClinRes where
  analysis : List Char
  evidence_count : ℕ
deriving DecidableEq

/-- Result record of `RAGPipeline._analyze_market`. -/
structure MktRes where
  analysis : List Char
  market_docs : ℕ
deriving DecidableEq

/-- Model of `RAGPipeline._analyze_context` (step 1).  The prompt only feeds the
external call, whose outcome is the argument `g`; on failure the step
catches the exception and returns the query-derived fallback record. -/
def analyzeContext (q : List Char) (docs : List RetrievedDoc)
    (g : GenResult) : CtxRes :=
  match g with
  | .ok c => ⟨c, docs.length⟩
  | .error _ => ⟨chars "Basic analysis of query: " ++ q, 0⟩

/-- The filter `doc.get('type') in ['paper', 'clinical_trial']` of step 2. -/
def clinicalDocs (docs : List RetrievedDoc) : List RetrievedDoc :=
  docs.filter (fun d => d.dtype == "paper" || d.dtype == "clinical_trial")

/-- Model of `RAGPipeline._analyze_clinical` (step 2). -/
def analyzeClinical (docs : List RetrievedDoc) (g : GenResult) : ClinRes :=
  match g with
  | .ok c => ⟨c, (clinicalDocs docs).length⟩
  | .error _ => ⟨chars "Clinical analysis unavailable", 0⟩

/-- The filter `doc.get('type') == 'market'` of step 3. -/
def marketDocs (docs : List RetrievedDoc) : List RetrievedDoc :=
  docs.filter (fun d => d.dtype == "market")

/-- Model of `RAGPipeline._analyze_market` (step 3). -/
def analyzeMarket (docs : List RetrievedDoc) (g : GenResult) : MktRes :=
  match g with
  | .ok c => ⟨c, (marketDocs docs).length⟩
  | .error _ => ⟨chars "Market analysis unavailable", 0⟩

/-- Model of `RAGPipeline._synthesize_decision` (step 4). -/
def synthesizeDecision (g : GenResult) : List Char :=
  match g with
  | .ok c => c
  | .error _ => chars "Decision synthesis unavailable"

/-- The structured analysis record returned to the caller
(the `Dict` built by `_format_response` and its fallback peers). -/
structure AnalysisRecord where
  clinical_viability : String
  key_evidence : List String
  major_risks : List String
  market_signal : String
  recommendation : String
  confidence_score : ℚ
  explanation : List Char
deriving DecidableEq

/-- Viability keyword scoring inside `RAGPipeline._format_response`. -/
def viabilityRag (clinical_text : List Char) : String :=
  if anyKw ["promising", "effective", "successful"] (lowerL clinical_text) then "High"
  else if anyKw ["failed", "ineffective", "toxic"] (lowerL clinical_text) then "Low"
  else "Medium"

/-- Risk keyword scoring inside `RAGPipeline._format_response`. -/
def risksRag (clinical_text : List Char) : List String :=
  let low := lowerL clinical_text
  let r := (if kwIn (chars "toxicity") low then ["toxicity concerns"] else [])
        ++ (if kwIn (chars "side effect") low then ["adverse effects"] else [])
        ++ (if kwIn (chars "trial") low && kwIn (chars "fail") low
            then ["trial failure history"] else [])
  if r = [] then ["standard development risks"] else r

/-- Market-signal keyword scoring inside `RAGPipeline._format_response`. -/
def marketSignalRag (market_text : List Char) : String :=
  if anyKw ["strong", "growing", "demand"] (lowerL market_text) then "Strong"
  else if anyKw ["weak", "declining", "saturated"] (lowerL market_text) then "Weak"
  else "Moderate"

/-- The recommendation rule of `_format_response`; the offline demo
(`OfflineRAGPipeline._analyze_documents`) contains the identical lines. -/
def recommendationOf (viability market_signal : String) : String :=
  if viability = "High" ∧ market_signal = "Strong" then "Proceed"
  else if viability = "Low" ∨ market_signal = "Weak" then "Drop"
  else "Investigate Further"

/-- Model of `sum(doc.get('similarity_score', 0) for doc in docs) / max(len(docs), 1)`. -/
def avgSimilarity (docs : List RetrievedDoc) : ℚ :=
  (docs.map (fun d => d.score)).sum / (max docs.length 1 : ℚ)

/-- The confidence computation of `_format_response` before the final
`min(confidence, 1.0)` and `round(confidence, 2)`. -/
def rawConfidence (docs_used evidence_count : ℕ) (avg : ℚ) : ℚ :=
  if docs_used = 0 then 3/10
  else 1/2 + (if 3 ≤ docs_used then 1/5 else 0)
           + (if 2 ≤ evidence_count then 1/5 else 0)
           + (if 1/2 < avg then 1/10 else 0)

/-- Model of `RAGPipeline._format_response`.  The explanation is the f-string of the
source with its four text sections (the numeric percent interpolations of
the confidence footer are not part of any claim and are left out). -/
def formatResponse (q : List Char) (docs : List RetrievedDoc) (ctx : CtxRes)
    (clin : ClinRes) (mkt : MktRes) (dec : List Char) : AnalysisRecord :=
  let viability := viabilityRag clin.analysis
  let market_signal := marketSignalRag mkt.analysis
  let confidence :=
    min (rawConfidence ctx.docs_used clin.evidence_count (avgSimilarity docs)) 1
  { clinical_viability := viability,
    key_evidence := (docs.take 3).map (fun d => d.filename),
    major_risks := risksRag clin.analysis,
    market_signal := market_signal,
    recommendation := recommendationOf viability market_signal,
    confidence_score := pyRound2 confidence,
    explanation := chars "**Query Analysis**: " ++ q
      ++ chars "\n\n**Clinical Assessment**: " ++ clin.analysis.take 200
      ++ chars "...\n\n**Market Intelligence**: " ++ mkt.analysis.take 200
      ++ chars "...\n\n**Final Decision**: " ++ dec.take 200 ++ chars "..." }

/-- Model of `RAGPipeline._fallback_response`: the universal error record. -/
def fallbackResponse (err : List Char) : AnalysisRecord :=
  { clinical_viability := "Unknown",
    key_evidence := [],
    major_risks := ["analysis error"],
    market_signal := "Unknown",
    recommendation := "Manual Review Required",
    confidence_score := 0,
    explanation := chars "Analysis failed: " ++ err
      ++ chars ". Please try again or contact support." }

/-- Viability parsing inside `_generate_general_insights`: a positive
keyword keeps viability at "Medium" on purpose. -/
def generalViability (content : List Char) : String :=
  if anyKw ["promising", "effective", "approved"] (lowerL content) then "Medium"
  else if anyKw ["failed", "dangerous", "withdrawn"] (lowerL content) then "Low"
  else "Medium"

/-- Risk list built inside `_generate_general_insights`. -/
def generalRisks (content : List Char) : List String :=
  ["Limited proprietary data available"] ++
    (if kwIn (chars "risk") (lowerL content) || kwIn (chars "concern") (lowerL content)
     then ["See detailed analysis for specific risks"] else [])

/-- Market-signal parsing inside `_generate_general_insights`. -/
def generalMarketSignal (content : List Char) : String :=
  if anyKw ["growing", "demand", "billion"] (lowerL content) then "Moderate"
  else "Unknown"

/-- The fixed non-proprietary disclaimer used as the whole evidence list of
the general-knowledge path. -/
def generalDisclaimer : String := "⚠️ Based on general AI knowledge (not internal data)"

/-- Model of `RAGPipeline._generate_general_insights`: one generation call; on
success a fixed-confidence record derived from light keyword checks, on
failure the universal error record. -/
def generateGeneralInsights (q : List Char) (g : GenResult) : AnalysisRecord :=
  match g with
  | .error e => fallbackResponse e
  | .ok content =>
    { clinical_viability := generalViability content,
      key_evidence := [generalDisclaimer],
      major_risks := generalRisks content,
      market_signal := generalMarketSignal content,
      recommendation := "Investigate Further",
      confidence_score := 1/4,
      explanation := chars "**⚠️ Note**: No relevant documents found in the knowledge base for this query. \nThe following insights are based on general AI knowledge and should be verified with authoritative sources.\n\n**Query**: "
        ++ q ++ chars "\n\n**General Insights**:\n" ++ content
        ++ chars "\n\n**Confidence**: LOW (25%) - This analysis is not based on proprietary data. \nPlease upload relevant documents or consult domain experts for higher confidence analysis." }

/-- The relevance gate of `RAGPipeline.analyze`:
`[doc for doc in retrieved_docs if doc.get('similarity_score', 0) > 0.3]`. -/
def relevantDocs (retrieved : List RetrievedDoc) : List RetrievedDoc :=
  retrieved.filter (fun d => decide ((3 : ℚ)/10 < d.score))

/-- Model of `RAGPipeline.analyze`.  The retrieval outcome and the outcomes of the
five possible generation calls are inputs; the top-level `try/except` turns
a retrieval failure into the universal error record. -/
def analyze (q : List Char) (searchRes : Except (List Char) (List RetrievedDoc))
    (g1 g2 g3 g4 gGen : GenResult) : AnalysisRecord :=
  match searchRes with
  | .error e => fallbackResponse e
  | .ok retrieved =>
    let relevant := relevantDocs retrieved
    if 1 ≤ relevant.length then
      let ctx := analyzeContext q relevant g1
      let clin := analyzeClinical relevant g2
      let mkt := analyzeMarket relevant g3
      let dec := synthesizeDecision g4
      formatResponse q relevant ctx clin mkt dec
    else
      generateGeneralInsights q gGen

/-- Model of `OfflineRAGPipeline._analyze_documents`: the concatenation
`' '.join(doc['content'].lower() for doc in docs)` that all offline keyword
checks run over. -/
def allContent (docs : List RetrievedDoc) : List Char :=
  List.intercalate [' '] (docs.map (fun d => lowerL d.content))

/-- Viability rule of the offline demo (input already lowercased). -/
def viabilityDemo (t : List Char) : String :=
  if anyKw ["effective", "successful", "promising", "approved"] t then "High"
  else if anyKw ["failed", "ineffective", "toxic", "discontinued"] t then "Low"
  else "Medium"

/-- Risk rule of the offline demo (input already lowercased). -/
def risksDemo (t : List Char) : List String :=
  let r := (if kwIn (chars "toxicity") t || kwIn (chars "toxic") t
            then ["toxicity concerns"] else [])
        ++ (if kwIn (chars "side effect") t || kwIn (chars "adverse") t
            then ["adverse effects"] else [])
        ++ (if kwIn (chars "trial") t && kwIn (chars "fail") t
            then ["clinical trial failures"] else [])
        ++ (if kwIn (chars "bleeding") t then ["bleeding risk"] else [])
  if r = [] then ["standard development risks"] else r

/-- Market-signal rule of the offline demo (input already lowercased). -/
def marketSignalDemo (t : List Char) : String :=
  if anyKw ["billion", "growing", "strong", "demand"] t then "Strong"
  else if anyKw ["declining", "weak", "saturated"] t then "Weak"
  else "Moderate"

/-- Offline demo confidence: `round(min(0.6 + len(docs) * 0.05, 0.95), 2)`. -/
def confidenceDemo (n : ℕ) : ℚ := pyRound2 (min ((3 : ℚ)/5 + n * (1/20)) (19/20))

/-- Transcribed from the specification's words for the confidence formula
(claim C4): base 0.3 when no documents were used in the context step,
otherwise 0.5 plus the three bonuses, the total clamped to [0, 1] and
rounded to two decimals. -/
def specConfidence (docs_used evidence_count : ℕ) (meanSim : ℚ) : ℚ :=
  pyRound2 (max 0 (min 1
    (if docs_used = 0 then 3/10
     else 1/2 + (if 3 ≤ docs_used then 1/5 else 0)
              + (if 2 ≤ evidence_count then 1/5 else 0)
              + (if 1/2 < meanSim then 1/10 else 0))))

/-! ### Helper lemmas -/

theorem kwAt_self_append (kw suf : List Char) : kwAt kw (kw ++ suf) = true := by
  induction kw with
  | nil => rfl
  | cons a as ih => simp [kwAt, ih]

theorem kwIn_of_kwAt {kw s : List Char} (h : kwAt kw s = true) : kwIn kw s = true := by
  cases s with
  | nil => simpa [kwIn] using h
  | cons b bs => simp [kwIn, h]

theorem kwIn_append_of_kwIn {kw rest : List Char} (pre : List Char)
    (h : kwIn kw rest = true) : kwIn kw (pre ++ rest) = true := by
  induction pre with
  | nil => simpa using h
  | cons b bs ih =>
      cases hbs : bs ++ rest with
      | nil => simp_all [kwIn]
      | cons c cs => simp [kwIn, hbs] at ih ⊢ ; right; simpa [hbs] using ih

theorem kwIn_sandwich (pre kw suf : List Char) :
    kwIn kw (pre ++ kw ++ suf) = true := by
  have h1 : kwIn kw (kw ++ suf) = true := kwIn_of_kwAt (kwAt_self_append kw suf)
  calc kwIn kw (pre ++ kw ++ suf) = kwIn kw (pre ++ (kw ++ suf)) := by
        rw [List.append_assoc]
    _ = true := kwIn_append_of_kwIn pre h1

theorem pyRound2_eq_self {x : ℚ} (h : twoDecimal x) : pyRound2 x = x := by
  obtain ⟨m, hm⟩ := h
  unfold pyRound2
  rw [hm, Int.floor_intCast]
  have h0 : (m : ℚ) - (m : ℚ) = 0 := by ring
  rw [h0]
  have hlt : ¬ ((1 : ℚ)/2 < 0) := by norm_num
  have hlt2 : (0 : ℚ) < 1/2 := by norm_num
  rw [if_neg hlt, if_pos hlt2]
  have : (m : ℚ) = x * 100 := hm.symm
  field_simp [this]

theorem leSI_trans (a b c : ℕ × ℚ) (h1 : leSI a b = true) (h2 : leSI b c = true) :
    leSI a c = true := by
  simp only [leSI, decide_eq_true_eq] at h1 h2 ⊢
  rcases h1 with h1 | ⟨h1e, h1i⟩ <;> rcases h2 with h2 | ⟨h2e, h2i⟩
  · exact Or.inl (lt_trans h2 h1)
  · exact Or.inl (h2e ▸ h1)
  · exact Or.inl (h1e ▸ h2)
  · exact Or.inr ⟨h1e.trans h2e, le_trans h1i h2i⟩

theorem leSI_total (a b : ℕ × ℚ) : (leSI a b || leSI b a) = true := by
  simp only [leSI, Bool.or_eq_true, decide_eq_true_eq]
  rcases lt_trichotomy a.2 b.2 with h | h | h
  · exact Or.inr (Or.inl h)
  · rcases Nat.le_total a.1 b.1 with hi | hi
    · exact Or.inl (Or.inr ⟨h, hi⟩)
    · exact Or.inr (Or.inr ⟨h.symm, hi⟩)
  · exact Or.inl (Or.inl h)

theorem recommendationOf_eq_proceed (v m : String) :
    recommendationOf v m = "Proceed" ↔ (v = "High" ∧ m = "Strong") := by
  unfold recommendationOf
  split_ifs with h1 h2 <;> simp_all

theorem recommendationOf_eq_drop (v m : String) :
    recommendationOf v m = "Drop" ↔ (v = "Low" ∨ m = "Weak") := by
  unfold recommendationOf
  split_ifs with h1 h2
  · obtain ⟨hv, hm⟩ := h1
    subst hv; subst hm; simp
  · simpa using h2
  · simpa using h2

theorem recommendationOf_cases (v m : String) :
    recommendationOf v m = "Proceed" ∨ recommendationOf v m = "Drop" ∨
      recommendationOf v m = "Investigate Further" := by
  unfold recommendationOf
  split_ifs <;> simp

theorem viabilityRag_cases (t : List Char) :
    viabilityRag t = "High" ∨ viabilityRag t = "Low" ∨ viabilityRag t = "Medium" := by
  unfold viabilityRag
  split_ifs <;> simp

theorem generalViability_cases (t : List Char) :
    generalViability t = "Medium" ∨ generalViability t = "Low" := by
  unfold generalViability
  split_ifs <;> simp

theorem generalMarketSignal_cases (t : List Char) :
    generalMarketSignal t = "Moderate" ∨ generalMarketSignal t = "Unknown" := by
  unfold generalMarketSignal
  split_ifs <;> simp

theorem rawConfidence_form (d e : ℕ) (a : ℚ) :
    ∃ m : ℤ, rawConfidence d e a = (m : ℚ)/100 ∧ 30 ≤ m ∧ m ≤ 100 := by
  unfold rawConfidence
  split_ifs
  · exact ⟨30, by norm_num⟩
  · exact ⟨100, by norm_num⟩
  · exact ⟨90, by norm_num⟩
  · exact ⟨80, by norm_num⟩
  · exact ⟨70, by norm_num⟩
  · exact ⟨80, by norm_num⟩
  · exact ⟨70, by norm_num⟩
  · exact ⟨60, by norm_num⟩
  · exact ⟨50, by norm_num⟩

theorem rawConfidence_nonneg (d e : ℕ) (a : ℚ) : 0 ≤ rawConfidence d e a := by
  obtain ⟨m, hm, h30, _⟩ := rawConfidence_form d e a
  have hm0 : (0 : ℤ) ≤ m := le_trans (by norm_num) h30
  rw [hm]
  have : (0 : ℚ) ≤ (m : ℚ) := by exact_mod_cast hm0
  linarith

theorem rawConfidence_le_one (d e : ℕ) (a : ℚ) : rawConfidence d e a ≤ 1 := by
  obtain ⟨m, hm, _, h100⟩ := rawConfidence_form d e a
  have : (m : ℚ) ≤ 100 := by exact_mod_cast h100
  rw [hm]
  linarith

theorem twoDecimal_rawConfidence (d e : ℕ) (a : ℚ) :
    twoDecimal (rawConfidence d e a) := by
  obtain ⟨m, hm, _, _⟩ := rawConfidence_form d e a
  exact ⟨m, by rw [hm]; ring⟩

/-- In `_format_response` the `min` with 1 and the final rounding are both
identities: the raw confidence already lies in [0.3, 1] on a hundredth grid. -/
theorem formatResponse_confidence (q : List Char) (docs : List RetrievedDoc)
    (ctx : CtxRes) (clin : ClinRes) (mkt : MktRes) (dec : List Char) :
    (formatResponse q docs ctx clin mkt dec).confidence_score
      = rawConfidence ctx.docs_used clin.evidence_count (avgSimilarity docs) := by
  show pyRound2 (min (rawConfidence ctx.docs_used clin.evidence_count
      (avgSimilarity docs)) 1) = _
  rw [min_eq_left (rawConfidence_le_one _ _ _)]
  exact pyRound2_eq_self (twoDecimal_rawConfidence _ _ _)

theorem mkResult_score {s : VectorStore} {p : ℕ × ℚ} {r : RetrievedDoc}
    (h : mkResult s p = some r) : r.score = p.2 := by
  unfold mkResult at h
  split_ifs at h
  · cases h; rfl

theorem searchHits_length (s : VectorStore) (qv : List ℚ) (k : ℕ) :
    (searchHits s qv k).length = min k s.vectors.length := by
  simp [searchHits, List.length_take, List.length_mergeSort, List.enum_length,
    min_assoc]

theorem searchHits_sorted (s : VectorStore) (qv : List ℚ) (k : ℕ) :
    List.Pairwise (fun a b : ℕ × ℚ => b.2 ≤ a.2) (searchHits s qv k) := by
  have hs : List.Pairwise (fun a b => leSI a b = true)
      (((s.vectors.map (fun v => ip qv v)).enum).mergeSort leSI) :=
    List.sorted_mergeSort leSI_trans leSI_total ((s.vectors.map (fun v => ip qv v)).enum)
  have ht : List.Pairwise (fun a b : ℕ × ℚ => leSI a b = true) (searchHits s qv k) :=
    List.Pairwise.sublist (List.take_sublist _ _) hs
  refine ht.imp ?_
  intro a b hab
  simp only [leSI, decide_eq_true_eq] at hab
  rcases hab with h | ⟨h, _⟩
  · exact le_of_lt h
  · exact le_of_eq h.symm

theorem analyze_retrieval_error (q e : List Char) (g1 g2 g3 g4 gGen : GenResult) :
    analyze q (.error e) g1 g2 g3 g4 gGen = fallbackResponse e := rfl

theorem analyze_relevant (q : List Char) (retrieved : List RetrievedDoc)
    (g1 g2 g3 g4 gGen : GenResult) (h : 1 ≤ (relevantDocs retrieved).length) :
    analyze q (.ok retrieved) g1 g2 g3 g4 gGen
      = formatResponse q (relevantDocs retrieved)
          (analyzeContext q (relevantDocs retrieved) g1)
          (analyzeClinical (relevantDocs retrieved) g2)
          (analyzeMarket (relevantDocs retrieved) g3)
          (synthesizeDecision g4) := by
  simp [analyze, h]

theorem analyze_irrelevant (q : List Char) (retrieved : List RetrievedDoc)
    (g1 g2 g3 g4 gGen : GenResult) (h : ¬ 1 ≤ (relevantDocs retrieved).length) :
    analyze q (.ok retrieved) g1 g2 g3 g4 gGen = generateGeneralInsights q gGen := by
  simp [analyze, h]

theorem formatResponse_viability (q : List Char) (docs : List RetrievedDoc)
    (ctx : CtxRes) (clin : ClinRes) (mkt : MktRes) (dec : List Char) :
    (formatResponse q docs ctx clin mkt dec).clinical_viability
      = viabilityRag clin.analysis := rfl

theorem formatResponse_market (q : List Char) (docs : List RetrievedDoc)
    (ctx : CtxRes) (clin : ClinRes) (mkt : MktRes) (dec : List Char) :
    (formatResponse q docs ctx clin mkt dec).market_signal
      = marketSignalRag mkt.analysis := rfl

theorem formatResponse_recommendation (q : List Char) (docs : List RetrievedDoc)
    (ctx : CtxRes) (clin : ClinRes) (mkt : MktRes) (dec : List Char) :
    (formatResponse q docs ctx clin mkt dec).recommendation
      = recommendationOf (viabilityRag clin.analysis) (marketSignalRag mkt.analysis) := rfl

theorem demoRaw_twoDecimal (n : ℕ) :
    twoDecimal (min ((3 : ℚ)/5 + n * (1/20)) (19/20)) := by
  rcases le_total ((3 : ℚ)/5 + n * (1/20)) (19/20) with h | h
  · rw [min_eq_left h]
    exact ⟨60 + 5 * n, by push_cast; ring⟩
  · rw [min_eq_right h]
    exact ⟨95, by norm_num⟩

theorem confidenceDemo_eval (n : ℕ) :
    confidenceDemo n = min ((3 : ℚ)/5 + n * (1/20)) (19/20) :=
  pyRound2_eq_self (demoRaw_twoDecimal n)

/-! ### Claim theorems -/

/-- Claim C9: the parallel-storage invariant `len(vectors) = len(documents)
= len(metadata)` holds for the fresh store and is preserved by every
`add_documents` call, which appends exactly one vector per input document;
an empty input is a complete no-op and existing entries are never modified
or deleted (they survive as the unchanged prefix of each list). -/
theorem add_documents_invariant (embed : List Char → List ℚ) (docs : List Doc)
    (s : VectorStore) (h : s.inv) :
    emptyStore.inv
    ∧ (addDocuments embed docs s).inv
    ∧ addDocuments embed [] s = s
    ∧ (addDocuments embed docs s).vectors.length = s.vectors.length + docs.length
    ∧ (addDocuments embed docs s).vectors.take s.vectors.length = s.vectors
    ∧ (addDocuments embed docs s).documents.take s.documents.length = s.documents
    ∧ (addDocuments embed docs s).metadata.take s.metadata.length = s.metadata := by
  obtain ⟨h1, h2⟩ := h
  refine ⟨⟨rfl, rfl⟩, ?_, by simp [addDocuments], ?_, ?_, ?_, ?_⟩ <;>
    unfold addDocuments <;> split_ifs with hd
  · exact ⟨h1, h2⟩
  · constructor <;> simp only [List.length_append, List.length_map] <;> omega
  · simp [hd]
  · simp [List.length_append, List.length_map]
  · exact List.take_length s.vectors
  · exact List.take_left s.vectors _
  · exact List.take_length s.documents
  · exact List.take_left s.documents _
  · exact List.take_length s.metadata
  · exact List.take_left s.metadata _

/-- Witness for `add_documents_invariant` at a concrete store and batch. -/
theorem add_documents_invariant_witness :
    emptyStore.inv
    ∧ (addDocuments (fun _ => [(1 : ℚ)]) [⟨chars "a trial", "t.txt", "paper"⟩]
        emptyStore).inv :=
  ⟨by decide,
   (add_documents_invariant (fun _ => [(1 : ℚ)]) [⟨chars "a trial", "t.txt", "paper"⟩]
      emptyStore (by decide)).2.1⟩

/-- Claim C1: whenever fewer than one retrieved document passes the
`similarity_score > 0.3` gate, `analyze` returns the general-knowledge
record: confidence fixed at 0.25 and recommendation fixed at "Investigate
Further" whatever text the generation service produced, with the evidence
list being exactly the fixed non-proprietary disclaimer. -/
theorem analyze_general_fallback (q : List Char) (retrieved : List RetrievedDoc)
    (g1 g2 g3 g4 : GenResult) (content : List Char)
    (h : (relevantDocs retrieved).length < 1) :
    (analyze q (.ok retrieved) g1 g2 g3 g4 (.ok content)).confidence_score = 1/4
    ∧ (analyze q (.ok retrieved) g1 g2 g3 g4 (.ok content)).recommendation
        = "Investigate Further"
    ∧ (analyze q (.ok retrieved) g1 g2 g3 g4 (.ok content)).key_evidence
        = [generalDisclaimer] := by
  have h' : ¬ 1 ≤ (relevantDocs retrieved).length := by omega
  rw [analyze_irrelevant q retrieved g1 g2 g3 g4 (.ok content) h']
  exact ⟨rfl, rfl, rfl⟩

/-- Witness for `analyze_general_fallback`: retrieval returned nothing. -/
theorem analyze_general_fallback_witness :
    (relevantDocs []).length < 1
    ∧ (analyze (chars "rare disease") (.ok []) (.ok (chars "a")) (.ok (chars "b"))
        (.ok (chars "c")) (.ok (chars "d")) (.ok (chars "general text"))).confidence_score
        = 1/4
    ∧ (analyze (chars "rare disease") (.ok []) (.ok (chars "a")) (.ok (chars "b"))
        (.ok (chars "c")) (.ok (chars "d")) (.ok (chars "general text"))).recommendation
        = "Investigate Further"
    ∧ (analyze (chars "rare disease") (.ok []) (.ok (chars "a")) (.ok (chars "b"))
        (.ok (chars "c")) (.ok (chars "d")) (.ok (chars "general text"))).key_evidence
        = [generalDisclaimer] :=
  ⟨by decide,
   analyze_general_fallback (chars "rare disease") [] (.ok (chars "a")) (.ok (chars "b"))
     (.ok (chars "c")) (.ok (chars "d")) (chars "general text") (by decide)⟩

/-- Claim C10: on the general-knowledge path the viability is "Medium" or
"Low" and never "High" (positive keywords are deliberately capped at
"Medium"), the market signal is "Unknown" or "Moderate" and never "Strong"
or "Weak", so this path can never recommend "Proceed" or "Drop". -/
theorem general_insights_caps (q content : List Char) :
    ((generateGeneralInsights q (.ok content)).clinical_viability = "Medium"
      ∨ (generateGeneralInsights q (.ok content)).clinical_viability = "Low")
    ∧ (generateGeneralInsights q (.ok content)).clinical_viability ≠ "High"
    ∧ ((generateGeneralInsights q (.ok content)).market_signal = "Unknown"
      ∨ (generateGeneralInsights q (.ok content)).market_signal = "Moderate")
    ∧ (generateGeneralInsights q (.ok content)).market_signal ≠ "Strong"
    ∧ (generateGeneralInsights q (.ok content)).market_signal ≠ "Weak"
    ∧ (generateGeneralInsights q (.ok content)).recommendation ≠ "Proceed"
    ∧ (generateGeneralInsights q (.ok content)).recommendation ≠ "Drop"
    ∧ (anyKw ["promising", "effective", "approved"] (lowerL content) = true →
        (generateGeneralInsights q (.ok content)).clinical_viability = "Medium") := by
  have hv : (generateGeneralInsights q (.ok content)).clinical_viability
      = generalViability content := rfl
  have hm : (generateGeneralInsights q (.ok content)).market_signal
      = generalMarketSignal content := rfl
  have hr : (generateGeneralInsights q (.ok content)).recommendation
      = "Investigate Further" := rfl
  refine ⟨?_, ?_, ?_, ?_, ?_, ?_, ?_, ?_⟩
  · rw [hv]; exact generalViability_cases content
  · rw [hv]
    rcases generalViability_cases content with h | h <;> rw [h] <;> decide
  · rw [hm]
    rcases generalMarketSignal_cases content with h | h <;> rw [h] <;> simp
  · rw [hm]
    rcases generalMarketSignal_cases content with h | h <;> rw [h] <;> decide
  · rw [hm]
    rcases generalMarketSignal_cases content with h | h <;> rw [h] <;> decide
  · rw [hr]; decide
  · rw [hr]; decide
  · intro hpos
    rw [hv]
    unfold generalViability
    rw [if_pos hpos]

/-- Witness for `general_insights_caps`: a positively-worded generated text
still yields "Medium" viability. -/
theorem general_insights_caps_witness :
    anyKw ["promising", "effective", "approved"] (lowerL (chars "an effective drug")) = true
    ∧ (generateGeneralInsights (chars "q") (.ok (chars "an effective drug"))).clinical_viability
        = "Medium" :=
  ⟨by decide,
   (general_insights_caps (chars "q") (chars "an effective drug")).2.2.2.2.2.2.2 (by decide)⟩

/-- Claim C8: any exception inside the pipeline is caught at the top level
of `analyze` and converted into the universal fallback record with
recommendation "Manual Review Required", confidence 0.0 and the error
message embedded in the explanation; the same record is produced when the
general-knowledge generation call itself raises. -/
theorem analyze_error_fallback (q e eg : List Char) (retrieved : List RetrievedDoc)
    (g1 g2 g3 g4 gGen : GenResult) (h : (relevantDocs retrieved).length < 1) :
    analyze q (.error e) g1 g2 g3 g4 gGen = fallbackResponse e
    ∧ analyze q (.ok retrieved) g1 g2 g3 g4 (.error eg) = fallbackResponse eg
    ∧ (fallbackResponse e).recommendation = "Manual Review Required"
    ∧ (fallbackResponse e).confidence_score = 0
    ∧ kwIn e (fallbackResponse e).explanation = true := by
  refine ⟨rfl, ?_, rfl, rfl, ?_⟩
  · have h' : ¬ 1 ≤ (relevantDocs retrieved).length := by omega
    rw [analyze_irrelevant q retrieved g1 g2 g3 g4 (.error eg) h']
    rfl
  · exact kwIn_sandwich (chars "Analysis failed: ") e
      (chars ". Please try again or contact support.")

/-- Witness for `analyze_error_fallback` at a concrete failing retrieval. -/
theorem analyze_error_fallback_witness :
    (relevantDocs []).length < 1
    ∧ analyze (chars "q") (.error (chars "boom")) (.ok (chars "a")) (.ok (chars "a"))
        (.ok (chars "a")) (.ok (chars "a")) (.ok (chars "a"))
        = fallbackResponse (chars "boom")
    ∧ analyze (chars "q") (.ok []) (.ok (chars "a")) (.ok (chars "a"))
        (.ok (chars "a")) (.ok (chars "a")) (.error (chars "api down"))
        = fallbackResponse (chars "api down")
    ∧ (fallbackResponse (chars "boom")).recommendation = "Manual Review Required"
    ∧ (fallbackResponse (chars "boom")).confidence_score = 0
    ∧ kwIn (chars "boom") (fallbackResponse (chars "boom")).explanation = true :=
  ⟨by decide,
   analyze_error_fallback (chars "q") (chars "boom") (chars "api down") []
     (.ok (chars "a")) (.ok (chars "a")) (.ok (chars "a")) (.ok (chars "a"))
     (.ok (chars "a")) (by decide)⟩

/-- Counterexample to claim C7: when the generation call of the context
step fails, the step does not return a fixed "... unavailable" placeholder:
it returns the query-dependent string "Basic analysis of query: {query}",
which contains no "unavailable" and differs between queries. -/
theorem context_step_placeholder_counterexample :
    (analyzeContext (chars "alpha") [] (Except.error (chars "boom"))).analysis
        = chars "Basic analysis of query: alpha"
    ∧ kwIn (chars "unavailable")
        ((analyzeContext (chars "alpha") [] (Except.error (chars "boom"))).analysis) = false
    ∧ (analyzeContext (chars "beta") [] (Except.error (chars "boom"))).analysis
        ≠ (analyzeContext (chars "alpha") [] (Except.error (chars "boom"))).analysis := by
  refine ⟨by decide, by decide, by decide⟩

/-- Claim C7 as amended: steps 2-4 return their fixed "... unavailable"
placeholders on generation failure, step 1 returns the query-derived
"Basic analysis of query: {query}" record with `docs_used = 0`; no step
propagates the exception and with every call failing the chain still runs
to completion, producing the formatted record from the degraded inputs. -/
theorem step_failures_degrade (q : List Char) (docs : List RetrievedDoc)
    (e1 e2 e3 e4 : List Char) (retrieved : List RetrievedDoc) (gGen : GenResult)
    (h : 1 ≤ (relevantDocs retrieved).length) :
    analyzeContext q docs (.error e1) = ⟨chars "Basic analysis of query: " ++ q, 0⟩
    ∧ analyzeClinical docs (.error e2) = ⟨chars "Clinical analysis unavailable", 0⟩
    ∧ analyzeMarket docs (.error e3) = ⟨chars "Market analysis unavailable", 0⟩
    ∧ synthesizeDecision (.error e4) = chars "Decision synthesis unavailable"
    ∧ analyze q (.ok retrieved) (.error e1) (.error e2) (.error e3) (.error e4) gGen
        = formatResponse q (relevantDocs retrieved)
            ⟨chars "Basic analysis of query: " ++ q, 0⟩
            ⟨chars "Clinical analysis unavailable", 0⟩
            ⟨chars "Market analysis unavailable", 0⟩
            (chars "Decision synthesis unavailable") := by
  refine ⟨rfl, rfl, rfl, rfl, ?_⟩
  rw [analyze_relevant q retrieved (.error e1) (.error e2) (.error e3) (.error e4) gGen h]
  rfl

/-- Witness for `step_failures_degrade`: one relevant retrieved document. -/
theorem step_failures_degrade_witness :
    1 ≤ (relevantDocs [⟨chars "a trial", "t.txt", "paper", 1⟩]).length
    ∧ analyze (chars "aspirin") (.ok [⟨chars "a trial", "t.txt", "paper", 1⟩])
        (.error (chars "t1")) (.error (chars "t2")) (.error (chars "t3"))
        (.error (chars "t4")) (.ok (chars "g"))
        = formatResponse (chars "aspirin")
            (relevantDocs [⟨chars "a trial", "t.txt", "paper", 1⟩])
            ⟨chars "Basic analysis of query: " ++ chars "aspirin", 0⟩
            ⟨chars "Clinical analysis unavailable", 0⟩
            ⟨chars "Market analysis unavailable", 0⟩
            (chars "Decision synthesis unavailable") := by
  have h : 1 ≤ (relevantDocs [⟨chars "a trial", "t.txt", "paper", 1⟩]).length := by
    have h3 : ((3 : ℚ)/10 < 1) := by norm_num
    simp [relevantDocs, List.filter, h3]
  exact ⟨h, (step_failures_degrade (chars "aspirin") [] (chars "t1") (chars "t2")
    (chars "t3") (chars "t4") [⟨chars "a trial", "t.txt", "paper", 1⟩]
    (.ok (chars "g")) h).2.2.2.2⟩

/-- Counterexample to claim C5: the online pipeline's viability scorer does
not use the keyword set {promising, effective, successful, approved}: a
clinical text containing only "approved" is scored "Medium", not "High"
(and likewise "discontinued" alone does not score "Low"). -/
theorem viability_keywords_counterexample :
    kwIn (chars "approved") (lowerL (chars "Approved by the FDA")) = true
    ∧ viabilityRag (chars "Approved by the FDA") = "Medium"
    ∧ viabilityRag (chars "Approved by the FDA") ≠ "High"
    ∧ kwIn (chars "discontinued") (lowerL (chars "It was discontinued")) = true
    ∧ viabilityRag (chars "It was discontinued") = "Medium"
    ∧ viabilityRag (chars "It was discontinued") ≠ "Low" := by
  refine ⟨by decide, by decide, by decide, by decide, by decide, by decide⟩

/-- Claim C5 as amended: the offline demo scorer uses the full claimed
keyword sets ({effective, successful, promising, approved} for "High",
{failed, ineffective, toxic, discontinued} for "Low"); the online pipeline
scorer uses the reduced sets {promising, effective, successful} and
{failed, ineffective, toxic}.  In both, the "Low" check runs only when the
"High" check did not match, so a text with keywords from both lists is
scored "High"; without any keyword the score is "Medium". -/
theorem viability_keywords (t : List Char) :
    (anyKw ["promising", "effective", "successful"] (lowerL t) = true →
        viabilityRag t = "High")
    ∧ (anyKw ["promising", "effective", "successful"] (lowerL t) = false →
        anyKw ["failed", "ineffective", "toxic"] (lowerL t) = true →
        viabilityRag t = "Low")
    ∧ (anyKw ["promising", "effective", "successful"] (lowerL t) = false →
        anyKw ["failed", "ineffective", "toxic"] (lowerL t) = false →
        viabilityRag t = "Medium")
    ∧ (anyKw ["effective", "successful", "promising", "approved"] t = true →
        viabilityDemo t = "High")
    ∧ (anyKw ["effective", "successful", "promising", "approved"] t = false →
        anyKw ["failed", "ineffective", "toxic", "discontinued"] t = true →
        viabilityDemo t = "Low")
    ∧ (anyKw ["effective", "successful", "promising", "approved"] t = false →
        anyKw ["failed", "ineffective", "toxic", "discontinued"] t = false →
        viabilityDemo t = "Medium") := by
  unfold viabilityRag viabilityDemo
  refine ⟨fun h1 => ?_, fun h1 h2 => ?_, fun h1 h2 => ?_,
          fun h1 => ?_, fun h1 h2 => ?_, fun h1 h2 => ?_⟩ <;>
    simp [h1] <;> simp [h2]

/-- Witness for `viability_keywords` covering both scorers and all three
outcomes, a both-lists text included. -/
theorem viability_keywords_witness :
    viabilityRag (chars "promising but toxic") = "High"
    ∧ viabilityRag (chars "it was toxic") = "Low"
    ∧ viabilityRag (chars "nothing to report") = "Medium"
    ∧ viabilityDemo (chars "approved but discontinued") = "High"
    ∧ viabilityDemo (chars "discontinued") = "Low"
    ∧ viabilityDemo (chars "nothing to report") = "Medium" :=
  ⟨(viability_keywords (chars "promising but toxic")).1 (by decide),
   (viability_keywords (chars "it was toxic")).2.1 (by decide) (by decide),
   (viability_keywords (chars "nothing to report")).2.2.1 (by decide) (by decide),
   (viability_keywords (chars "approved but discontinued")).2.2.2.1 (by decide),
   (viability_keywords (chars "discontinued")).2.2.2.2.1 (by decide) (by decide),
   (viability_keywords (chars "nothing to report")).2.2.2.2.2 (by decide) (by decide)⟩

/-- Counterexample to claim C6: the online scorer has no bleeding family at
all (a text containing "bleeding" gets the default tag list), and the
offline scorer tags a trial/fail co-occurrence "clinical trial failures",
not "trial failure history". -/
theorem risk_tags_counterexample :
    kwIn (chars "bleeding") (lowerL (chars "bleeding observed")) = true
    ∧ risksRag (chars "bleeding observed") = ["standard development risks"]
    ∧ "bleeding risk" ∉ risksRag (chars "bleeding observed")
    ∧ kwIn (chars "trial") (chars "the trial failed") = true
    ∧ kwIn (chars "fail") (chars "the trial failed") = true
    ∧ "trial failure history" ∉ risksDemo (chars "the trial failed")
    ∧ risksDemo (chars "the trial failed") = ["clinical trial failures"] := by
  refine ⟨by decide, by decide, by decide, by decide, by decide, by decide, by decide⟩

/-- Claim C6 as amended: the online scorer emits "toxicity concerns" iff
'toxicity' appears, "adverse effects" iff 'side effect' appears, "trial
failure history" iff 'trial' and 'fail' co-occur, and has no bleeding
family; the offline scorer emits "toxicity concerns" iff 'toxicity' or
'toxic' appears, "adverse effects" iff 'side effect' or 'adverse' appears,
"clinical trial failures" iff 'trial' and 'fail' co-occur, and "bleeding
risk" iff 'bleeding' appears.  In both, when no family matches the list is
exactly ["standard development risks"]. -/
theorem risk_tags (t : List Char) :
    (("toxicity concerns" ∈ risksRag t ↔ kwIn (chars "toxicity") (lowerL t) = true)
     ∧ ("adverse effects" ∈ risksRag t ↔ kwIn (chars "side effect") (lowerL t) = true)
     ∧ ("trial failure history" ∈ risksRag t
        ↔ (kwIn (chars "trial") (lowerL t) && kwIn (chars "fail") (lowerL t)) = true)
     ∧ "bleeding risk" ∉ risksRag t
     ∧ (kwIn (chars "toxicity") (lowerL t) = false →
        kwIn (chars "side effect") (lowerL t) = false →
        (kwIn (chars "trial") (lowerL t) && kwIn (chars "fail") (lowerL t)) = false →
        risksRag t = ["standard development risks"]))
    ∧ (("toxicity concerns" ∈ risksDemo t
        ↔ (kwIn (chars "toxicity") t || kwIn (chars "toxic") t) = true)
     ∧ ("adverse effects" ∈ risksDemo t
        ↔ (kwIn (chars "side effect") t || kwIn (chars "adverse") t) = true)
     ∧ ("clinical trial failures" ∈ risksDemo t
        ↔ (kwIn (chars "trial") t && kwIn (chars "fail") t) = true)
     ∧ ("bleeding risk" ∈ risksDemo t ↔ kwIn (chars "bleeding") t = true)
     ∧ "trial failure history" ∉ risksDemo t
     ∧ ((kwIn (chars "toxicity") t || kwIn (chars "toxic") t) = false →
        (kwIn (chars "side effect") t || kwIn (chars "adverse") t) = false →
        (kwIn (chars "trial") t && kwIn (chars "fail") t) = false →
        kwIn (chars "bleeding") t = false →
        risksDemo t = ["standard development risks"])) := by
  constructor
  · unfold risksRag
    cases h1 : kwIn (chars "toxicity") (lowerL t) <;>
    cases h2 : kwIn (chars "side effect") (lowerL t) <;>
    cases h3 : (kwIn (chars "trial") (lowerL t) && kwIn (chars "fail") (lowerL t)) <;>
      simp [h1, h2, h3]
  · unfold risksDemo
    cases h1 : (kwIn (chars "toxicity") t || kwIn (chars "toxic") t) <;>
    cases h2 : (kwIn (chars "side effect") t || kwIn (chars "adverse") t) <;>
    cases h3 : (kwIn (chars "trial") t && kwIn (chars "fail") t) <;>
    cases h4 : kwIn (chars "bleeding") t <;>
      simp [h1, h2, h3, h4]

/-- Witness for `risk_tags`: a text matching no risk family gets the
default tag in both scorers. -/
theorem risk_tags_witness :
    risksRag (chars "routine checkup") = ["standard development risks"]
    ∧ risksDemo (chars "routine checkup") = ["standard development risks"] :=
  ⟨(risk_tags (chars "routine checkup")).1.2.2.2.2 (by decide) (by decide) (by decide),
   (risk_tags (chars "routine checkup")).2.2.2.2.2.2 (by decide) (by decide) (by decide)
     (by decide)⟩

/-- Claim C2: a scored record recommends "Proceed" exactly when viability
is "High" and market signal is "Strong", "Drop" exactly when viability is
"Low" or market signal is "Weak", and otherwise "Investigate Further"; and
across every path of `analyze` a record is "Proceed" only when both
conditions hold.  The offline demo shares the identical recommendation
lines, covered through its scorer components. -/
theorem recommendation_rule :
    (∀ (q : List Char) (docs : List RetrievedDoc) (ctx : CtxRes) (clin : ClinRes)
        (mkt : MktRes) (dec : List Char),
      ((formatResponse q docs ctx clin mkt dec).recommendation = "Proceed"
        ↔ ((formatResponse q docs ctx clin mkt dec).clinical_viability = "High"
           ∧ (formatResponse q docs ctx clin mkt dec).market_signal = "Strong"))
      ∧ ((formatResponse q docs ctx clin mkt dec).recommendation = "Drop"
        ↔ ((formatResponse q docs ctx clin mkt dec).clinical_viability = "Low"
           ∨ (formatResponse q docs ctx clin mkt dec).market_signal = "Weak"))
      ∧ ((formatResponse q docs ctx clin mkt dec).recommendation = "Proceed"
         ∨ (formatResponse q docs ctx clin mkt dec).recommendation = "Drop"
         ∨ (formatResponse q docs ctx clin mkt dec).recommendation
             = "Investigate Further"))
    ∧ (∀ (q : List Char) (searchRes : Except (List Char) (List RetrievedDoc))
        (g1 g2 g3 g4 gGen : GenResult),
      (analyze q searchRes g1 g2 g3 g4 gGen).recommendation = "Proceed"
        ↔ ((analyze q searchRes g1 g2 g3 g4 gGen).clinical_viability = "High"
           ∧ (analyze q searchRes g1 g2 g3 g4 gGen).market_signal = "Strong"))
    ∧ (∀ t : List Char,
      (recommendationOf (viabilityDemo t) (marketSignalDemo t) = "Proceed"
        ↔ (viabilityDemo t = "High" ∧ marketSignalDemo t = "Strong"))
      ∧ (recommendationOf (viabilityDemo t) (marketSignalDemo t) = "Drop"
        ↔ (viabilityDemo t = "Low" ∨ marketSignalDemo t = "Weak"))) := by
  refine ⟨?_, ?_, ?_⟩
  · intro q docs ctx clin mkt dec
    rw [formatResponse_recommendation, formatResponse_viability, formatResponse_market]
    exact ⟨recommendationOf_eq_proceed _ _, recommendationOf_eq_drop _ _,
      recommendationOf_cases _ _⟩
  · intro q searchRes g1 g2 g3 g4 gGen
    cases searchRes with
    | error e =>
        rw [analyze_retrieval_error]
        show "Manual Review Required" = "Proceed"
          ↔ ("Unknown" = "High" ∧ "Unknown" = "Strong")
        decide
    | ok retrieved =>
        by_cases h : 1 ≤ (relevantDocs retrieved).length
        · rw [analyze_relevant q retrieved g1 g2 g3 g4 gGen h,
            formatResponse_recommendation, formatResponse_viability,
            formatResponse_market]
          exact recommendationOf_eq_proceed _ _
        · rw [analyze_irrelevant q retrieved g1 g2 g3 g4 gGen h]
          cases gGen with
          | error e =>
              show "Manual Review Required" = "Proceed"
                ↔ ("Unknown" = "High" ∧ "Unknown" = "Strong")
              decide
          | ok content =>
              show "Investigate Further" = "Proceed"
                ↔ (generalViability content = "High"
                   ∧ generalMarketSignal content = "Strong")
              rcases generalViability_cases content with hv | hv <;> rw [hv] <;> simp
  · intro t
    exact ⟨recommendationOf_eq_proceed _ _, recommendationOf_eq_drop _ _⟩

theorem specConfidence_eq_raw (d e : ℕ) (a : ℚ) :
    specConfidence d e a = rawConfidence d e a := by
  unfold specConfidence
  have hb : (if d = 0 then (3 : ℚ)/10
      else 1/2 + (if 3 ≤ d then 1/5 else 0) + (if 2 ≤ e then 1/5 else 0)
               + (if 1/2 < a then 1/10 else 0)) = rawConfidence d e a := rfl
  rw [hb, min_eq_right (rawConfidence_le_one d e a),
    max_eq_right (rawConfidence_nonneg d e a)]
  exact pyRound2_eq_self (twoDecimal_rawConfidence d e a)

/-- Claim C4: the confidence of a knowledge-base record equals the
specified formula (0.3 with no context documents, else 0.5 plus the three
bonuses, clamped and rounded to two decimals), and on every path of
`analyze` — and in the offline demo — the returned confidence lies in
[0, 1] with at most two decimal places. -/
theorem confidence_formula :
    (∀ (q : List Char) (docs : List RetrievedDoc) (ctx : CtxRes) (clin : ClinRes)
        (mkt : MktRes) (dec : List Char),
      (formatResponse q docs ctx clin mkt dec).confidence_score
        = specConfidence ctx.docs_used clin.evidence_count (avgSimilarity docs))
    ∧ (∀ (q : List Char) (searchRes : Except (List Char) (List RetrievedDoc))
        (g1 g2 g3 g4 gGen : GenResult),
      0 ≤ (analyze q searchRes g1 g2 g3 g4 gGen).confidence_score
      ∧ (analyze q searchRes g1 g2 g3 g4 gGen).confidence_score ≤ 1
      ∧ twoDecimal (analyze q searchRes g1 g2 g3 g4 gGen).confidence_score)
    ∧ (∀ n : ℕ,
      0 ≤ confidenceDemo n ∧ confidenceDemo n ≤ 1 ∧ twoDecimal (confidenceDemo n)) := by
  refine ⟨?_, ?_, ?_⟩
  · intro q docs ctx clin mkt dec
    rw [formatResponse_confidence, specConfidence_eq_raw]
  · intro q searchRes g1 g2 g3 g4 gGen
    cases searchRes with
    | error e =>
        rw [analyze_retrieval_error]
        have hc : (fallbackResponse e).confidence_score = 0 := rfl
        rw [hc]
        exact ⟨le_refl 0, by norm_num, ⟨0, by norm_num⟩⟩
    | ok retrieved =>
        by_cases h : 1 ≤ (relevantDocs retrieved).length
        · rw [analyze_relevant q retrieved g1 g2 g3 g4 gGen h,
            formatResponse_confidence]
          exact ⟨rawConfidence_nonneg _ _ _, rawConfidence_le_one _ _ _,
            twoDecimal_rawConfidence _ _ _⟩
        · rw [analyze_irrelevant q retrieved g1 g2 g3 g4 gGen h]
          cases gGen with
          | error e =>
              have hc : (generateGeneralInsights q (Except.error e)).confidence_score
                  = 0 := rfl
              rw [hc]
              exact ⟨le_refl 0, by norm_num, ⟨0, by norm_num⟩⟩
          | ok content =>
              have hc : (generateGeneralInsights q (Except.ok content)).confidence_score
                  = 1/4 := rfl
              rw [hc]
              exact ⟨by norm_num, by norm_num, ⟨25, by norm_num⟩⟩
  · intro n
    rw [confidenceDemo_eval]
    refine ⟨le_min (by positivity) (by norm_num),
      le_trans (min_le_right _ _) (by norm_num), demoRaw_twoDecimal n⟩

/-- Claim C3: for every store and query, `search` returns at most
`min top_k ntotal` results, the results are sorted by descending
similarity score, and searching the empty store returns the empty list. -/
theorem search_spec :
    (∀ (embed : List Char → List ℚ) (s : VectorStore) (q : List Char) (k : ℕ),
      (search embed s q k).length ≤ min k s.vectors.length
      ∧ List.Pairwise (fun a b : RetrievedDoc => b.score ≤ a.score)
          (search embed s q k))
    ∧ (∀ (embed : List Char → List ℚ) (q : List Char) (k : ℕ),
        search embed emptyStore q k = []) := by
  constructor
  · intro embed s q k
    by_cases h0 : s.vectors.length = 0
    · have he : search embed s q k = [] := by simp [search, h0]
      rw [he]
      exact ⟨Nat.zero_le _, List.Pairwise.nil⟩
    · have hs : search embed s q k
          = (searchHits s (embed q) k).filterMap (mkResult s) := by
        simp [search, h0]
      rw [hs]
      constructor
      · calc ((searchHits s (embed q) k).filterMap (mkResult s)).length
            ≤ (searchHits s (embed q) k).length := List.length_filterMap_le _ _
          _ = min k s.vectors.length := searchHits_length s (embed q) k
      · rw [List.pairwise_filterMap]
        refine (searchHits_sorted s (embed q) k).imp ?_
        intro a b hab x hx y hy
        rw [mkResult_score (Option.mem_def.mp hx), mkResult_score (Option.mem_def.mp hy)]
        exact hab
  · intro embed q k
    rfl
